import Mathlib

/-!
Shallow embedding of the patch reconciliation engine of the
chromium-patcher repository, together with theorems checking the
natural-language specification against it.

The embedded code lives in:
  * src/src/util.py                 (calculate_file_checksum, run_git,
                                     validate_dict_keys_match_dataclass)
  * src/src/patch_apply/patch_info.py   (AffectedFileData, PatchInfo,
                                     PatchInfoStaleStatus, get_stale_status)
  * src/patch_apply/git_patcher.py  (GitPatcher: apply_patches,
                                     perform_apply_for_patches,
                                     handle_obsolete_patchinfos)
  * src/src/patch_generator/git_patch_generator.py (GitPatchGenerator)

Filesystem and subprocess effects are modelled by oracle functions:
`calculate_file_checksum` becomes `Option String` valued (none = the
Python call raises), `run_git`-based operations become explicit success
flags or `Option`/`Except` values, paths are plain strings.
-/

/-! ## Configuration constants (config.py, class ProgramConfig) -/

/-- `ProgramConfig.PATCHINFO_FILE_SCHEMA_VERSION = 1`. -/
def PATCHINFO_FILE_SCHEMA_VERSION : Int := 1

/-- `ProgramConfig.PATCH_FILE_REPLACEMENT_SEPARATOR = "-"`. -/
def PATCH_FILE_REPLACEMENT_SEPARATOR : Char := '-'

/-- `ProgramConfig.PATCH_FILE_EXT = "patch"` (used as the suffix `.patch`). -/
def PATCH_FILE_EXT : List Char := ".patch".toList

/-! ## Data model (src/src/patch_apply/patch_info.py) -/

/-- `PatchInfoStaleStatus` (IntEnum), the five staleness statuses. -/
inductive PatchInfoStaleStatus where
  | NONE               -- 0: nothing changed, .patchinfo file is good
  | NO_PATCHINFO       -- 1: .patchinfo file does not exist
  | PATCHINFO_OUTDATED -- 2: .patchinfo invalid or old schema version
  | PATCH_CHANGED      -- 3: patch file changed since last application
  | SRC_CHANGED        -- 4: target files changed since last application
  deriving DecidableEq, Repr

/-- `AffectedFileData`: a repo-relative path plus the checksum recorded
for it (None in Python when not calculated). -/
structure AffectedFileData where
  file_relative_path : String
  file_checksum : Option String
  deriving DecidableEq, Repr

/-- `PatchInfo`: the persisted ledger record. -/
structure PatchInfo where
  schema_version : Int
  patch_checksum : Option String
  affected_files : List AffectedFileData
  deriving DecidableEq, Repr

/-! ## Staleness classifier (PatchInfo.get_stale_status)

The method reads the filesystem through four operations; we package the
values those operations would return as a read-only environment:

  * `patchinfoIsFile`  — the result of `patchinfo_file.is_file()`;
  * `parsedPatchinfo`  — the result of `PatchInfo.parse(patchinfo_file)`,
    `none` when the call raises (unreadable or invalid file);
  * `patchChecksum`    — `calculate_file_checksum(patch_file)`, `none`
    when the call raises;
  * `srcChecksum`      — `calculate_file_checksum(repo_dir / rel)` per
    relative path, `none` when the call raises.
-/

structure StaleEnv where
  patchinfoIsFile : Bool
  parsedPatchinfo : Option PatchInfo
  patchChecksum : Option String
  srcChecksum : String → Option String

/-- One affected-files loop iteration body condition: the current
checksum of the entry's path cannot be computed, or differs from the
recorded `file_checksum`. -/
def fileMismatch (src : String → Option String) (e : AffectedFileData) : Bool :=
  match src e.file_relative_path with
  | none => true
  | some c => some c != e.file_checksum

/-- The `for entry in patchinfo.affected_files` loop of
`get_stale_status`: first mismatch (in stored order) gives SRC_CHANGED,
otherwise NONE. -/
def scanAffectedFiles (src : String → Option String) :
    List AffectedFileData → PatchInfoStaleStatus
  | [] => .NONE
  | e :: rest =>
    if fileMismatch src e then .SRC_CHANGED else scanAffectedFiles src rest

/-- `PatchInfo.get_stale_status` (patch_info.py lines 170-237). -/
def get_stale_status (env : StaleEnv) : PatchInfoStaleStatus :=
  if env.patchinfoIsFile = false then .NO_PATCHINFO
  else
    match env.parsedPatchinfo with
    | none => .PATCHINFO_OUTDATED
    | some patchinfo =>
      if patchinfo.schema_version ≠ PATCHINFO_FILE_SCHEMA_VERSION then
        .PATCHINFO_OUTDATED
      else
        match env.patchChecksum with
        | none => .PATCH_CHANGED
        | some current =>
          if some current ≠ patchinfo.patch_checksum then .PATCH_CHANGED
          else scanAffectedFiles env.srcChecksum patchinfo.affected_files

/-! ### Helper lemmas about the affected-files scan -/

lemma scanAffectedFiles_eq_src_changed_iff
    (src : String → Option String) (l : List AffectedFileData) :
    scanAffectedFiles src l = .SRC_CHANGED ↔ ∃ e ∈ l, fileMismatch src e = true := by
  induction l with
  | nil => simp [scanAffectedFiles]
  | cons e rest ih =>
    simp only [scanAffectedFiles]
    by_cases h : fileMismatch src e = true
    · simp [h]
    · simp [h, ih]

lemma scanAffectedFiles_eq_none_iff
    (src : String → Option String) (l : List AffectedFileData) :
    scanAffectedFiles src l = .NONE ↔ ∀ e ∈ l, fileMismatch src e = false := by
  induction l with
  | nil => simp [scanAffectedFiles]
  | cons e rest ih =>
    simp only [scanAffectedFiles]
    by_cases h : fileMismatch src e = true
    · simp [h]
    · simp only [Bool.not_eq_true] at h
      simp [h, ih]

/-- C1. The staleness classifier returns exactly one of the five
statuses, with the fixed priority order of get_stale_status: no ledger
file → NO_PATCHINFO; ledger unreadable or schema version differing from
the current constant → PATCHINFO_OUTDATED (regardless of fingerprints);
artifact fingerprint uncomputable or differing from the recorded
patch_checksum → PATCH_CHANGED; some affected file mismatching (scanned
in stored order) → SRC_CHANGED; otherwise NONE. -/
theorem C1_stale_status_priority (env : StaleEnv) :
    (env.patchinfoIsFile = false → get_stale_status env = .NO_PATCHINFO) ∧
    (env.patchinfoIsFile = true → env.parsedPatchinfo = none →
      get_stale_status env = .PATCHINFO_OUTDATED) ∧
    (∀ patchinfo, env.patchinfoIsFile = true →
      env.parsedPatchinfo = some patchinfo →
      patchinfo.schema_version ≠ PATCHINFO_FILE_SCHEMA_VERSION →
      get_stale_status env = .PATCHINFO_OUTDATED) ∧
    (∀ patchinfo, env.patchinfoIsFile = true →
      env.parsedPatchinfo = some patchinfo →
      patchinfo.schema_version = PATCHINFO_FILE_SCHEMA_VERSION →
      (env.patchChecksum = none ∨ env.patchChecksum ≠ patchinfo.patch_checksum) →
      get_stale_status env = .PATCH_CHANGED) ∧
    (∀ patchinfo, env.patchinfoIsFile = true →
      env.parsedPatchinfo = some patchinfo →
      patchinfo.schema_version = PATCHINFO_FILE_SCHEMA_VERSION →
      env.patchChecksum ≠ none →
      env.patchChecksum = patchinfo.patch_checksum →
      (∃ e ∈ patchinfo.affected_files, fileMismatch env.srcChecksum e = true) →
      get_stale_status env = .SRC_CHANGED) ∧
    (∀ patchinfo, env.patchinfoIsFile = true →
      env.parsedPatchinfo = some patchinfo →
      patchinfo.schema_version = PATCHINFO_FILE_SCHEMA_VERSION →
      env.patchChecksum ≠ none →
      env.patchChecksum = patchinfo.patch_checksum →
      (∀ e ∈ patchinfo.affected_files, fileMismatch env.srcChecksum e = false) →
      get_stale_status env = .NONE) := by
  refine ⟨?_, ?_, ?_, ?_, ?_, ?_⟩
  · intro h
    simp [get_stale_status, h]
  · intro h hp
    simp [get_stale_status, h, hp]
  · intro patchinfo h hp hv
    simp [get_stale_status, h, hp, hv]
  · intro patchinfo h hp hv hc
    rcases hc with hc | hc
    · simp [get_stale_status, h, hp, hv, hc]
    · cases hcur : env.patchChecksum with
      | none => simp [get_stale_status, h, hp, hv, hcur]
      | some c =>
        rw [hcur] at hc
        simp [get_stale_status, h, hp, hv, hcur, hc]
  · intro patchinfo h hp hv hne heq hex
    cases hcur : env.patchChecksum with
    | none => exact absurd hcur hne
    | some c =>
      rw [hcur] at heq
      have hscan : scanAffectedFiles env.srcChecksum patchinfo.affected_files
          = .SRC_CHANGED := by
        rw [scanAffectedFiles_eq_src_changed_iff]
        exact hex
      simp [get_stale_status, h, hp, hv, hcur, ← heq, hscan]
  · intro patchinfo h hp hv hne heq hall
    cases hcur : env.patchChecksum with
    | none => exact absurd hcur hne
    | some c =>
      rw [hcur] at heq
      have hscan : scanAffectedFiles env.srcChecksum patchinfo.affected_files
          = .NONE := by
        rw [scanAffectedFiles_eq_none_iff]
        exact hall
      simp [get_stale_status, h, hp, hv, hcur, ← heq, hscan]

/-- A concrete environment with no ledger file. -/
def envNoLedger : StaleEnv :=
  { patchinfoIsFile := false
    parsedPatchinfo := none
    patchChecksum := some "abc"
    srcChecksum := fun _ => none }

/-- A concrete environment with a ledger whose schema version is stale
even though every fingerprint matches. -/
def envOldSchema : StaleEnv :=
  { patchinfoIsFile := true
    parsedPatchinfo := some
      { schema_version := 0
        patch_checksum := some "abc"
        affected_files := [⟨"a.cc", some "h1"⟩] }
    patchChecksum := some "abc"
    srcChecksum := fun _ => some "h1" }

theorem C1_stale_status_priority_witness :
    get_stale_status envNoLedger = .NO_PATCHINFO ∧
    get_stale_status envOldSchema = .PATCHINFO_OUTDATED :=
  ⟨(C1_stale_status_priority envNoLedger).1 rfl,
   (C1_stale_status_priority envOldSchema).2.2.1
     { schema_version := 0
       patch_checksum := some "abc"
       affected_files := [⟨"a.cc", some "h1"⟩] }
     rfl rfl (by decide)⟩

/-! ## Apply-phase data (src/patch_apply/git_patcher.py,
src/src/patch_apply/patch_apply_status.py) -/

/-- `PatchApplyReason.PATCH_REMOVED` message text. -/
def PATCH_REMOVED_REASON : String :=
  "The .patch file was removed since last applied."

/-- `PatchApplyData`: one pending to-apply unit. -/
structure PatchApplyData where
  patch_path : String
  patchinfo_path : String
  reason : String
  deriving DecidableEq, Repr

/-- `PatchApplyResult`: per-unit processing state of the apply phase. -/
structure PatchApplyResult where
  data : PatchApplyData
  affected_files : List AffectedFileData
  error : Option String
  deriving DecidableEq, Repr

/-- `FileChangeResult` (git_patcher.py lines 22-38).  Python `Path()`
(the empty path) is modelled as the empty string. -/
structure FileChangeResult where
  file_path : String
  patch_path : String
  reason : String
  error : Option String
  warning : Option String
  deriving DecidableEq, Repr

/-- `git_repo_dir.joinpath(rel)`. -/
def joinPath (dir rel : String) : String := dir ++ "/" ++ rel

/-- Environment of `GitPatcher.perform_apply_for_patches`: the values its
filesystem/git operations would return.
  * `affectedFilesData` — `get_affected_files_data(patch_path)`; `.error`
    means the call raised `RuntimeError`;
  * `resetOk` — whether `reset_files_in_repo` on the collected union
    succeeds (a failure raises `RuntimeError`, caught and only logged);
  * `applyPatch`  — per-patch `run_git(... apply ...)`; `some err` means
    the call raised with that message;
  * `patchChecksum` — `calculate_file_checksum(patch_path)` at
    ledger-write time, `none` when the call raises;
  * `srcChecksum` — `calculate_file_checksum(repo_dir / rel)` at
    ledger-write time, `none` when the call raises. -/
structure ApplyEnv where
  repoDir : String
  affectedFilesData : String → Except String (List AffectedFileData)
  resetOk : Bool
  applyPatch : String → Option String
  patchChecksum : String → Option String
  srcChecksum : String → Option String

/-- First loop of `perform_apply_for_patches` (lines 158-174): discover
the affected files of one unit; a failure empties the list and records
the error. -/
def getPatchData (env : ApplyEnv) (patch_data : PatchApplyData) : PatchApplyResult :=
  match env.affectedFilesData patch_data.patch_path with
  | .ok files => { data := patch_data, affected_files := files, error := none }
  | .error err =>
    { data := patch_data
      affected_files := []
      error := some ("Could not read data from patch file: " ++ err) }

/-- `files_to_reset` (lines 178-183): union, in order, of the affected
files of the non-failed units. -/
def filesToReset (repoDir : String) (ps : List PatchApplyResult) : List String :=
  (ps.filter (fun p => p.error = none)).flatMap
    (fun p => p.affected_files.map (fun e => joinPath repoDir e.file_relative_path))

/-- Second loop (lines 197-212): `git apply` per non-failed unit. -/
def applyStep (env : ApplyEnv) (p : PatchApplyResult) : PatchApplyResult :=
  if p.error ≠ none then p
  else
    match env.applyPatch p.data.patch_path with
    | none => p
    | some err => { p with error := some err }

/-- A `.patchinfo` file written by the apply phase. -/
structure LedgerWrite where
  patch_path : String
  patchinfo_path : String
  info : PatchInfo
  deriving DecidableEq, Repr

/-- The inner loop of the ledger-update pass (lines 227-238): update the
recorded checksum of each affected file in order; on the first failure
the remaining entries are left untouched and the error message is
returned. -/
def updateChecksumsAux (src : String → Option String) :
    List AffectedFileData → List AffectedFileData × Option String
  | [] => ([], none)
  | e :: rest =>
    match src e.file_relative_path with
    | none =>
      (e :: rest,
       some ("Failed to calculate checksum for affected file " ++ e.file_relative_path))
    | some c =>
      let r := updateChecksumsAux src rest
      ({ e with file_checksum := some c } :: r.1, r.2)

/-- Third loop of `perform_apply_for_patches` (lines 218-256): for a unit
with no error, recompute the patch checksum and every affected-file
checksum and write the new `PatchInfo`; any checksum failure marks the
unit failed and suppresses the write. -/
def ledgerStep (env : ApplyEnv) (p : PatchApplyResult) :
    PatchApplyResult × Option LedgerWrite :=
  if p.error ≠ none then (p, none)
  else
    match env.patchChecksum p.data.patch_path with
    | none => ({ p with error := some "Failed to calculate patch checksum" }, none)
    | some pc =>
      let u := updateChecksumsAux env.srcChecksum p.affected_files
      match u.2 with
      | some err => ({ p with affected_files := u.1, error := some err }, none)
      | none =>
        ({ p with affected_files := u.1 },
         some { patch_path := p.data.patch_path
                patchinfo_path := p.data.patchinfo_path
                info := { schema_version := PATCHINFO_FILE_SCHEMA_VERSION
                          patch_checksum := some pc
                          affected_files := u.1 } })

/-- Final loop (lines 258-281): one result record per affected file; a
unit with an empty affected-file list yields exactly one record with the
empty path. -/
def resultsForPatch (repoDir : String) (p : PatchApplyResult) : List FileChangeResult :=
  if p.affected_files.isEmpty then
    [{ file_path := ""
       patch_path := p.data.patch_path
       reason := p.data.reason
       error := p.error
       warning := none }]
  else
    p.affected_files.map (fun e =>
      { file_path := joinPath repoDir e.file_relative_path
        patch_path := p.data.patch_path
        reason := p.data.reason
        error := p.error
        warning := none })

/-- Everything `perform_apply_for_patches` produces or writes. -/
structure ApplyOutcome where
  processed : List PatchApplyResult
  ledgerWrites : List LedgerWrite
  resetTargets : List String
  results : List FileChangeResult

/-- `GitPatcher.perform_apply_for_patches` (git_patcher.py lines
147-283).  The single up-front reset is attempted on `resetTargets`; a
`RuntimeError` from it is caught at lines 185-191 and only logged, so
`env.resetOk` influences nothing else. -/
def perform_apply_for_patches (env : ApplyEnv)
    (patches_to_apply : List PatchApplyData) : ApplyOutcome :=
  let phase1 := patches_to_apply.map (getPatchData env)
  let toReset := filesToReset env.repoDir phase1
  let phase3 := phase1.map (applyStep env)
  let phase4 := phase3.map (ledgerStep env)
  { processed := phase4.map (fun x => x.1)
    ledgerWrites := phase4.filterMap (fun x => x.2)
    resetTargets := toReset
    results := (phase4.map (fun x => x.1)).flatMap (resultsForPatch env.repoDir) }

/-! ### Helper lemmas about the apply phase -/

lemma updateChecksumsAux_length (src : String → Option String)
    (l : List AffectedFileData) :
    (updateChecksumsAux src l).1.length = l.length := by
  induction l with
  | nil => rfl
  | cons e rest ih =>
    cases hc : src e.file_relative_path with
    | none => simp [updateChecksumsAux, hc]
    | some c => simp [updateChecksumsAux, hc, ih]

lemma updateChecksumsAux_ok_verified (src : String → Option String)
    (l : List AffectedFileData) (h : (updateChecksumsAux src l).2 = none) :
    ∀ e ∈ (updateChecksumsAux src l).1,
      src e.file_relative_path = e.file_checksum ∧ e.file_checksum ≠ none := by
  induction l with
  | nil => simp [updateChecksumsAux]
  | cons e rest ih =>
    cases hc : src e.file_relative_path with
    | none => simp [updateChecksumsAux, hc] at h
    | some c =>
      simp only [updateChecksumsAux, hc] at h ⊢
      intro x hx
      rcases List.mem_cons.mp hx with hx | hx
      · subst hx
        exact ⟨hc, by simp⟩
      · exact ih h x hx

lemma ledgerStep_fst_data (env : ApplyEnv) (p : PatchApplyResult) :
    ((ledgerStep env p).1).data = p.data := by
  unfold ledgerStep
  by_cases he : p.error ≠ none
  · simp [he]
  · simp only [he, if_false]
    cases hc : env.patchChecksum p.data.patch_path with
    | none => rfl
    | some pc =>
      cases hu : (updateChecksumsAux env.srcChecksum p.affected_files).2 with
      | none => simp [hu]
      | some err => simp [hu]

lemma ledgerStep_error_iff (env : ApplyEnv) (p : PatchApplyResult) :
    ((ledgerStep env p).1.error = none) ↔ ((ledgerStep env p).2).isSome := by
  unfold ledgerStep
  by_cases he : p.error ≠ none
  · simp [he]
  · simp only [he, if_false]
    cases hc : env.patchChecksum p.data.patch_path with
    | none => simp
    | some pc =>
      cases hu : (updateChecksumsAux env.srcChecksum p.affected_files).2 with
      | none =>
        simp only [hu]
        simp only [ne_eq, not_not] at he
        simp [he]
      | some err => simp [hu]

lemma ledgerStep_write_spec (env : ApplyEnv) (p : PatchApplyResult)
    (w : LedgerWrite) (hw : (ledgerStep env p).2 = some w) :
    w.patch_path = p.data.patch_path ∧
    w.patchinfo_path = p.data.patchinfo_path ∧
    w.info.schema_version = PATCHINFO_FILE_SCHEMA_VERSION ∧
    w.info.patch_checksum = env.patchChecksum p.data.patch_path ∧
    w.info.patch_checksum ≠ none ∧
    w.info.affected_files = (ledgerStep env p).1.affected_files ∧
    (∀ e ∈ w.info.affected_files,
      env.srcChecksum e.file_relative_path = e.file_checksum ∧
      e.file_checksum ≠ none) := by
  unfold ledgerStep at hw ⊢
  by_cases he : p.error ≠ none
  · simp [he] at hw
  · simp only [he, if_false] at hw ⊢
    cases hc : env.patchChecksum p.data.patch_path with
    | none => simp [hc] at hw
    | some pc =>
      simp only [hc] at hw ⊢
      cases hu : (updateChecksumsAux env.srcChecksum p.affected_files).2 with
      | some err => simp [hu] at hw
      | none =>
        simp only [hu, Option.some.injEq] at hw
        subst hw
        refine ⟨rfl, rfl, rfl, rfl, by simp, by simp [hu], ?_⟩
        exact updateChecksumsAux_ok_verified env.srcChecksum p.affected_files hu

lemma resultsForPatch_length (repoDir : String) (p : PatchApplyResult) :
    (resultsForPatch repoDir p).length = max 1 p.affected_files.length := by
  unfold resultsForPatch
  cases hl : p.affected_files with
  | nil => simp
  | cons a as => simp [Nat.max_eq_right (Nat.succ_le_succ (Nat.zero_le _))]

lemma resultsForPatch_warning_none (repoDir : String) (p : PatchApplyResult) :
    ∀ r ∈ resultsForPatch repoDir p, r.warning = none := by
  intro r hr
  unfold resultsForPatch at hr
  by_cases hl : p.affected_files.isEmpty
  · simp only [hl, if_true, List.mem_singleton] at hr
    simp [hr]
  · rw [if_neg hl] at hr
    obtain ⟨e, _, he⟩ := List.mem_map.mp hr
    simp [← he]

lemma filterMap_snd_length {α β : Type} (l : List (α × Option β))
    (h : ∀ x ∈ l, (x.2).isSome) :
    (l.filterMap (fun x => x.2)).length = l.length := by
  induction l with
  | nil => simp
  | cons a as ih =>
    have ha := h a (by simp)
    cases hv : a.2 with
    | none => rw [hv] at ha; simp at ha
    | some v => simp [List.filterMap_cons, hv, ih (fun x hx => h x (by simp [hx]))]

lemma length_flatMap_resultsForPatch (repoDir : String)
    (l : List PatchApplyResult) :
    (l.flatMap (resultsForPatch repoDir)).length
      = (l.map (fun p => max 1 p.affected_files.length)).sum := by
  induction l with
  | nil => rfl
  | cons p ps ih => simp [List.flatMap_cons, resultsForPatch_length, ih]

/-- C7. Per-unit reporting completeness: the apply phase processes every
unit, produces one result record per affected file, and a unit whose
affected-file list is empty yields exactly one record carrying the
unit's error and an empty file path, so no unit is absent from the
report. -/
theorem C7_per_unit_reporting (env : ApplyEnv)
    (patches_to_apply : List PatchApplyData) :
    ((perform_apply_for_patches env patches_to_apply).processed.length
        = patches_to_apply.length) ∧
    ((perform_apply_for_patches env patches_to_apply).results.length
        = ((perform_apply_for_patches env patches_to_apply).processed.map
            (fun p => max 1 p.affected_files.length)).sum) ∧
    (∀ p ∈ (perform_apply_for_patches env patches_to_apply).processed,
      p.affected_files = [] →
      ({ file_path := ""
         patch_path := p.data.patch_path
         reason := p.data.reason
         error := p.error
         warning := none } : FileChangeResult)
        ∈ (perform_apply_for_patches env patches_to_apply).results) := by
  refine ⟨?_, ?_, ?_⟩
  · simp [perform_apply_for_patches]
  · exact length_flatMap_resultsForPatch env.repoDir
      ((perform_apply_for_patches env patches_to_apply).processed)
  · intro p hp hempty
    have hone : resultsForPatch env.repoDir p
        = [{ file_path := ""
             patch_path := p.data.patch_path
             reason := p.data.reason
             error := p.error
             warning := none }] := by
      simp [resultsForPatch, hempty]
    exact List.mem_flatMap.mpr ⟨p, hp, by rw [hone]; exact List.mem_singleton.mpr rfl⟩

/-- C3. Ledger-write postcondition: every ledger entry written by the
apply phase carries the current schema version and freshly recomputed,
verified checksums; every unit that finishes without error has a ledger
write; every ledger write belongs to a unit that finished without error
(so a fingerprinting failure marks the unit failed and suppresses the
write). -/
theorem C3_ledger_write_postcondition (env : ApplyEnv)
    (patches_to_apply : List PatchApplyData) :
    (∀ w ∈ (perform_apply_for_patches env patches_to_apply).ledgerWrites,
        w.info.schema_version = PATCHINFO_FILE_SCHEMA_VERSION ∧
        w.info.patch_checksum = env.patchChecksum w.patch_path ∧
        w.info.patch_checksum ≠ none ∧
        ∀ e ∈ w.info.affected_files,
          env.srcChecksum e.file_relative_path = e.file_checksum ∧
          e.file_checksum ≠ none) ∧
    (∀ p ∈ (perform_apply_for_patches env patches_to_apply).processed,
        p.error = none →
        ∃ w ∈ (perform_apply_for_patches env patches_to_apply).ledgerWrites,
          w.patch_path = p.data.patch_path ∧
          w.patchinfo_path = p.data.patchinfo_path ∧
          w.info.affected_files = p.affected_files) ∧
    (∀ w ∈ (perform_apply_for_patches env patches_to_apply).ledgerWrites,
        ∃ p ∈ (perform_apply_for_patches env patches_to_apply).processed,
          p.error = none ∧ w.patch_path = p.data.patch_path ∧
          w.patchinfo_path = p.data.patchinfo_path) := by
  refine ⟨?_, ?_, ?_⟩
  · intro w hw
    have hw' : w ∈ (((patches_to_apply.map (getPatchData env)).map
        (applyStep env)).map (ledgerStep env)).filterMap (fun x => x.2) := hw
    obtain ⟨x, hx, hxw⟩ := List.mem_filterMap.mp hw'
    obtain ⟨q, hq, hqx⟩ := List.mem_map.mp hx
    subst hqx
    have spec := ledgerStep_write_spec env q w hxw
    refine ⟨spec.2.2.1, ?_, spec.2.2.2.2.1, spec.2.2.2.2.2.2⟩
    rw [spec.1]
    exact spec.2.2.2.1
  · intro p hp herr
    have hp' : p ∈ (((patches_to_apply.map (getPatchData env)).map
        (applyStep env)).map (ledgerStep env)).map (fun x => x.1) := hp
    obtain ⟨x, hx, hxp⟩ := List.mem_map.mp hp'
    obtain ⟨q, hq, hqx⟩ := List.mem_map.mp hx
    subst hqx
    have herr' : (ledgerStep env q).1.error = none := by rw [hxp]; exact herr
    obtain ⟨w, hw2⟩ := Option.isSome_iff_exists.mp
      ((ledgerStep_error_iff env q).mp herr')
    have spec := ledgerStep_write_spec env q w hw2
    have hdata : p.data = q.data := by
      rw [← hxp]; exact ledgerStep_fst_data env q
    refine ⟨w, List.mem_filterMap.mpr ⟨ledgerStep env q, hx, hw2⟩, ?_, ?_, ?_⟩
    · rw [hdata]; exact spec.1
    · rw [hdata]; exact spec.2.1
    · rw [← hxp]; exact spec.2.2.2.2.2.1
  · intro w hw
    have hw' : w ∈ (((patches_to_apply.map (getPatchData env)).map
        (applyStep env)).map (ledgerStep env)).filterMap (fun x => x.2) := hw
    obtain ⟨x, hx, hxw⟩ := List.mem_filterMap.mp hw'
    obtain ⟨q, hq, hqx⟩ := List.mem_map.mp hx
    subst hqx
    have spec := ledgerStep_write_spec env q w hxw
    have herr : (ledgerStep env q).1.error = none :=
      (ledgerStep_error_iff env q).mpr (by rw [hxw]; rfl)
    have hdata := ledgerStep_fst_data env q
    refine ⟨(ledgerStep env q).1, List.mem_map.mpr ⟨ledgerStep env q, hx, rfl⟩,
      herr, ?_, ?_⟩
    · rw [hdata]; exact spec.1
    · rw [hdata]; exact spec.2.1

/-- The on-disk state a later `get_stale_status` call sees for an
artifact whose ledger was just written by the apply phase, with no
intervening change to the artifact or the source files (so the checksum
oracles are unchanged). -/
def staleEnvAfter (env : ApplyEnv) (w : LedgerWrite) : StaleEnv :=
  { patchinfoIsFile := true
    parsedPatchinfo := some w.info
    patchChecksum := env.patchChecksum w.patch_path
    srcChecksum := env.srcChecksum }

lemma ledgerWrite_fresh (env : ApplyEnv) (w : LedgerWrite)
    (hs : w.info.schema_version = PATCHINFO_FILE_SCHEMA_VERSION)
    (hc : w.info.patch_checksum = env.patchChecksum w.patch_path)
    (hn : w.info.patch_checksum ≠ none)
    (hf : ∀ e ∈ w.info.affected_files,
        env.srcChecksum e.file_relative_path = e.file_checksum ∧
        e.file_checksum ≠ none) :
    get_stale_status (staleEnvAfter env w) = .NONE := by
  cases hpc : w.info.patch_checksum with
  | none => exact absurd hpc hn
  | some pc =>
    have hcur : env.patchChecksum w.patch_path = some pc := by rw [← hc, hpc]
    have hscan : scanAffectedFiles env.srcChecksum w.info.affected_files
        = .NONE := by
      rw [scanAffectedFiles_eq_none_iff]
      intro e he
      obtain ⟨h1, h2⟩ := hf e he
      cases hec : e.file_checksum with
      | none => exact absurd hec h2
      | some c =>
        rw [hec] at h1
        simp [fileMismatch, h1, hec]
    simp [get_stale_status, staleEnvAfter, hs, hcur, hpc, hscan]

/-- C2. Idempotence of reconciliation: with no intervening change to
artifacts or source files (same checksum oracles), every ledger entry
the apply phase wrote classifies as FRESH (NONE) on the next discovery;
every unit that was successfully processed has such a ledger entry at
its own artifact/ledger paths, so it is classified FRESH on the second
run; and when every unit of the first run succeeded, each of the
`patches_to_apply` got a ledger write and none of those artifacts is
selected for re-application (the second to-apply list is empty). -/
theorem C2_idempotence (env : ApplyEnv)
    (patches_to_apply : List PatchApplyData) :
    (∀ w ∈ (perform_apply_for_patches env patches_to_apply).ledgerWrites,
        get_stale_status (staleEnvAfter env w) = .NONE) ∧
    (∀ p ∈ (perform_apply_for_patches env patches_to_apply).processed,
        p.error = none →
        ∃ w ∈ (perform_apply_for_patches env patches_to_apply).ledgerWrites,
          w.patch_path = p.data.patch_path ∧
          w.patchinfo_path = p.data.patchinfo_path ∧
          get_stale_status (staleEnvAfter env w) = .NONE) ∧
    ((∀ p ∈ (perform_apply_for_patches env patches_to_apply).processed,
        p.error = none) →
      (perform_apply_for_patches env patches_to_apply).ledgerWrites.length
          = patches_to_apply.length ∧
      (perform_apply_for_patches env patches_to_apply).ledgerWrites.filter
          (fun w =>
            get_stale_status (staleEnvAfter env w) != PatchInfoStaleStatus.NONE)
        = []) := by
  have hfresh : ∀ w ∈ (perform_apply_for_patches env patches_to_apply).ledgerWrites,
      get_stale_status (staleEnvAfter env w) = .NONE := by
    intro w hw
    have hw' : w ∈ (((patches_to_apply.map (getPatchData env)).map
        (applyStep env)).map (ledgerStep env)).filterMap (fun x => x.2) := hw
    obtain ⟨x, hx, hxw⟩ := List.mem_filterMap.mp hw'
    obtain ⟨q, hq, hqx⟩ := List.mem_map.mp hx
    subst hqx
    have spec := ledgerStep_write_spec env q w hxw
    refine ledgerWrite_fresh env w spec.2.2.1 ?_ spec.2.2.2.2.1
      spec.2.2.2.2.2.2
    rw [spec.1]
    exact spec.2.2.2.1
  refine ⟨hfresh, ?_, ?_⟩
  · intro p hp herr
    have hp' : p ∈ (((patches_to_apply.map (getPatchData env)).map
        (applyStep env)).map (ledgerStep env)).map (fun x => x.1) := hp
    obtain ⟨x, hx, hxp⟩ := List.mem_map.mp hp'
    obtain ⟨q, hq, hqx⟩ := List.mem_map.mp hx
    subst hqx
    have herr' : (ledgerStep env q).1.error = none := by rw [hxp]; exact herr
    obtain ⟨w, hw2⟩ := Option.isSome_iff_exists.mp
      ((ledgerStep_error_iff env q).mp herr')
    have spec := ledgerStep_write_spec env q w hw2
    have hdata : p.data = q.data := by
      rw [← hxp]; exact ledgerStep_fst_data env q
    have hwmem : w ∈ (perform_apply_for_patches env patches_to_apply).ledgerWrites :=
      List.mem_filterMap.mpr ⟨ledgerStep env q, hx, hw2⟩
    refine ⟨w, hwmem, ?_, ?_, hfresh w hwmem⟩
    · rw [hdata]; exact spec.1
    · rw [hdata]; exact spec.2.1
  intro hall
  constructor
  · have hsome : ∀ x ∈ ((patches_to_apply.map (getPatchData env)).map
        (applyStep env)).map (ledgerStep env), (x.2).isSome := by
      intro x hx
      obtain ⟨q, hq, hqx⟩ := List.mem_map.mp hx
      subst hqx
      refine (ledgerStep_error_iff env q).mp ?_
      exact hall _ (List.mem_map.mpr ⟨ledgerStep env q, hx, rfl⟩)
    have := filterMap_snd_length _ hsome
    calc (perform_apply_for_patches env patches_to_apply).ledgerWrites.length
        = (((patches_to_apply.map (getPatchData env)).map
            (applyStep env)).map (ledgerStep env)).length := this
      _ = patches_to_apply.length := by simp
  · rw [List.filter_eq_nil_iff]
    intro w hw
    simp [hfresh w hw]

/-- C6 (amended). Apply-phase reset failure handling: the outcome of
`perform_apply_for_patches` does not depend on whether the single
up-front reset succeeds (the `RuntimeError` is caught at lines 185-191
and only logged), so the batch is not aborted and no unit is marked
failed because of it; however the failure is NOT attached to the
per-file result records: every record of the apply phase has
`warning = None`. -/
theorem C6_reset_failure_nonfatal (env : ApplyEnv)
    (patches_to_apply : List PatchApplyData) :
    (perform_apply_for_patches { env with resetOk := false } patches_to_apply
        = perform_apply_for_patches { env with resetOk := true } patches_to_apply) ∧
    (∀ r ∈ (perform_apply_for_patches env patches_to_apply).results,
        r.warning = none) := by
  refine ⟨rfl, ?_⟩
  intro r hr
  have hr' : r ∈ ((((patches_to_apply.map (getPatchData env)).map
      (applyStep env)).map (ledgerStep env)).map (fun x => x.1)).flatMap
      (resultsForPatch env.repoDir) := hr
  obtain ⟨p, _, hrp⟩ := List.mem_flatMap.mp hr'
  exact resultsForPatch_warning_none env.repoDir p r hrp

/-! ### A concrete apply-phase scenario, used by witnesses and the C6
counterexample: one unit whose discovery, apply and checksums all
succeed (the source file hash changes from "h0" to "h1" across the
apply). -/

def envA : ApplyEnv :=
  { repoDir := "repo"
    affectedFilesData := fun _ => .ok [⟨"a.cc", some "h0"⟩]
    resetOk := true
    applyPatch := fun _ => none
    patchChecksum := fun _ => some "pc"
    srcChecksum := fun _ => some "h1" }

def patchesA : List PatchApplyData := [⟨"p.patch", "p.patchinfo", "r"⟩]

def writeA : LedgerWrite :=
  { patch_path := "p.patch"
    patchinfo_path := "p.patchinfo"
    info := { schema_version := 1
              patch_checksum := some "pc"
              affected_files := [⟨"a.cc", some "h1"⟩] } }

def processedA : PatchApplyResult :=
  { data := ⟨"p.patch", "p.patchinfo", "r"⟩
    affected_files := [⟨"a.cc", some "h1"⟩]
    error := none }

/-- Same scenario but the up-front reset fails. -/
def envC6 : ApplyEnv := { envA with resetOk := false }

/-- A unit whose affected-file discovery fails. -/
def envB : ApplyEnv :=
  { repoDir := "repo"
    affectedFilesData := fun _ => .error "boom"
    resetOk := true
    applyPatch := fun _ => none
    patchChecksum := fun _ => some "pc"
    srcChecksum := fun _ => some "h1" }

def processedB : PatchApplyResult :=
  { data := ⟨"p.patch", "p.patchinfo", "r"⟩
    affected_files := []
    error := some "Could not read data from patch file: boom" }

theorem C2_idempotence_witness :
    get_stale_status (staleEnvAfter envA writeA) = .NONE :=
  (C2_idempotence envA patchesA).1 writeA (List.mem_singleton.mpr rfl)

theorem C3_ledger_write_postcondition_witness :
    ∃ w ∈ (perform_apply_for_patches envA patchesA).ledgerWrites,
      w.patch_path = processedA.data.patch_path ∧
      w.patchinfo_path = processedA.data.patchinfo_path ∧
      w.info.affected_files = processedA.affected_files :=
  (C3_ledger_write_postcondition envA patchesA).2.1 processedA
    (List.mem_singleton.mpr rfl) rfl

theorem C7_per_unit_reporting_witness :
    ({ file_path := ""
       patch_path := processedB.data.patch_path
       reason := processedB.data.reason
       error := processedB.error
       warning := none } : FileChangeResult)
      ∈ (perform_apply_for_patches envB patchesA).results :=
  (C7_per_unit_reporting envB patchesA).2.2 processedB
    (List.mem_singleton.mpr rfl) rfl

theorem C6_reset_failure_nonfatal_witness :
    ({ file_path := "repo/a.cc"
       patch_path := "p.patch"
       reason := "r"
       error := none
       warning := none } : FileChangeResult).warning = none :=
  (C6_reset_failure_nonfatal envC6 patchesA).2 _ (List.mem_singleton.mpr rfl)

/-- C6 counterexample to the claim as stated: in the concrete scenario
`envC6` the up-front reset covers a non-empty file set and fails
(`resetOk = false`), the unit itself succeeds, and yet the per-file
result record of the apply phase carries no warning at all — the reset
failure is not surfaced on the results, contradicting "the failure is
surfaced as a non-fatal warning attached to the eventual per-file result
records". -/
theorem C6_reset_failure_counterexample :
    envC6.resetOk = false ∧
    (perform_apply_for_patches envC6 patchesA).resetTargets = ["repo/a.cc"] ∧
    (perform_apply_for_patches envC6 patchesA).results
      = [{ file_path := "repo/a.cc"
           patch_path := "p.patch"
           reason := "r"
           error := none
           warning := none }] :=
  ⟨rfl, rfl, rfl⟩

/-! ## Obsolete-handling phase (GitPatcher.handle_obsolete_patchinfos,
git_patcher.py lines 340-393) -/

/-- Python pathlib `with_suffix`: drop the final component's last
extension (the part from its last dot, if the component has one) and
append `"." ++ ext`.  A dot that starts the final component (a bare
dotfile such as `.patchinfo`) is not a suffix in pathlib, so nothing is
dropped there.  Used to derive the sibling `.patch` path of a
`.patchinfo` file. -/
def withSuffix (path ext : String) : String :=
  let revd := path.toList.reverse
  let stem :=
    match revd.dropWhile (fun c => (c != '.') && (c != '/')) with
    | '.' :: rest =>
      match rest with
      | [] => revd
      | '/' :: _ => revd
      | _ :: _ => rest
    | _ => revd
  String.mk (stem.reverse ++ ('.' :: ext.toList))

/-- Environment of `handle_obsolete_patchinfos`:
  * `parsePatchinfo` — `PatchInfo.parse` per ledger path, `none` when the
    call raises (unreadable ledger);
  * `unlinkOk` — whether `patchinfo_file.unlink(missing_ok=True)`
    succeeds for that path; `missing_ok=True` suppresses only
    `FileNotFoundError`, so a `PermissionError`/`OSError` still raises
    and is caught by the same `except` as a parse failure;
  * `resetOk` — whether the single `reset_files_in_repo` call over the
    collected set succeeds. -/
structure ObsoleteEnv where
  repoDir : String
  parsePatchinfo : String → Option PatchInfo
  unlinkOk : String → Bool
  resetOk : Bool

/-- What `handle_obsolete_patchinfos` does and returns:
`deletedLedgers` are the `.patchinfo` files it unlinked (skipped files
stay on disk), `resetTargets` the collected set handed to the single
reset call, `results` the returned records. -/
structure ObsoleteOutcome where
  deletedLedgers : List String
  resetTargets : List String
  results : List FileChangeResult

/-- Result records contributed by one parsed obsolete ledger (lines
369-380): one per recorded affected file, reason PATCH_REMOVED, no
error. -/
def obsoleteRecordsFor (env : ObsoleteEnv) (patchinfo_file : String)
    (patchinfo : PatchInfo) : List FileChangeResult :=
  patchinfo.affected_files.map (fun e =>
    { file_path := joinPath env.repoDir e.file_relative_path
      patch_path := withSuffix patchinfo_file "patch"
      reason := PATCH_REMOVED_REASON
      error := none
      warning := none })

/-- The `try` block of the per-unit loop (git_patcher.py lines
354-363): `PatchInfo.parse` runs first, then
`patchinfo_file.unlink(missing_ok=True)`; an exception from EITHER call
hits the same `except`, which logs, skips the unit (`continue`) and
leaves the ledger file on disk.  `some patchinfo` means the unit was
handled: the ledger parsed AND was deleted. -/
def obsoleteUnitHandled (env : ObsoleteEnv) (patchinfo_file : String) :
    Option PatchInfo :=
  match env.parsePatchinfo patchinfo_file with
  | none => none
  | some patchinfo =>
    if env.unlinkOk patchinfo_file then some patchinfo else none

/-- `GitPatcher.handle_obsolete_patchinfos`: parse each obsolete ledger
and delete it (a failure of either step skips the unit, leaving the file
on disk), collecting the recorded affected files of the handled ones;
after the loop issue one reset over the collected set, and if it fails
mark every produced record with the non-fatal warning (deletions are not
rolled back). -/
def handle_obsolete_patchinfos (env : ObsoleteEnv)
    (obsolete_patchinfo_files : List String) : ObsoleteOutcome :=
  let parsedOk := obsolete_patchinfo_files.filterMap
    (fun f => (obsoleteUnitHandled env f).map (fun patchinfo => (f, patchinfo)))
  let files_to_reset := parsedOk.flatMap (fun fp =>
    fp.2.affected_files.map (fun e => joinPath env.repoDir e.file_relative_path))
  let base := parsedOk.flatMap (fun fp => obsoleteRecordsFor env fp.1 fp.2)
  { deletedLedgers := parsedOk.map (fun fp => fp.1)
    resetTargets := files_to_reset
    results :=
      if env.resetOk then base
      else base.map (fun r => { r with warning := some "Some resets failed" }) }

lemma filterMap_pair_flatMap {α : Type} (g : PatchInfo → List α)
    (parse : String → Option PatchInfo) (files : List String) :
    ((files.filterMap (fun f => (parse f).map (fun patchinfo => (f, patchinfo)))).flatMap
        (fun fp => g fp.2))
      = (files.filterMap parse).flatMap g := by
  induction files with
  | nil => rfl
  | cons f fs ih =>
    cases h : parse f with
    | none => simp [List.filterMap_cons, h, ih]
    | some patchinfo => simp [List.filterMap_cons, h, ih]

lemma obsolete_base_fields (env : ObsoleteEnv) (files : List String) :
    ∀ r ∈ (files.filterMap
        (fun f => (obsoleteUnitHandled env f).map (fun patchinfo => (f, patchinfo)))).flatMap
        (fun fp => obsoleteRecordsFor env fp.1 fp.2),
      r.error = none ∧ r.warning = none := by
  intro r hr
  obtain ⟨fp, _, hrf⟩ := List.mem_flatMap.mp hr
  obtain ⟨e, _, he⟩ := List.mem_map.mp hrf
  simp [← he]

/-- C4 (amended). Obsolete handling: an obsolete ledger that parses and
whose deletion succeeds is deleted and its recorded affected files are
collected; a unit whose ledger is unreadable OR whose deletion raises
(`missing_ok=True` suppresses only FileNotFoundError) is skipped and the
ledger file is left on disk for the next cycle; after all units exactly
one reset covers the full collected set of the handled units; when that
reset fails every record of the phase gets the non-fatal warning while
`error` stays None, and the deletions do not depend on the reset outcome
(no rollback). -/
theorem C4_obsolete_handling (env : ObsoleteEnv) (files : List String) :
    (∀ f ∈ files, env.parsePatchinfo f ≠ none → env.unlinkOk f = true →
        f ∈ (handle_obsolete_patchinfos env files).deletedLedgers) ∧
    (∀ f, env.parsePatchinfo f = none ∨ env.unlinkOk f = false →
        f ∉ (handle_obsolete_patchinfos env files).deletedLedgers) ∧
    ((handle_obsolete_patchinfos env files).resetTargets
        = (files.filterMap (fun f => obsoleteUnitHandled env f)).flatMap
            (fun patchinfo => patchinfo.affected_files.map
              (fun e => joinPath env.repoDir e.file_relative_path))) ∧
    ((handle_obsolete_patchinfos env files).deletedLedgers
        = (handle_obsolete_patchinfos { env with resetOk := true }
            files).deletedLedgers) ∧
    (env.resetOk = false →
      ∀ r ∈ (handle_obsolete_patchinfos env files).results,
        r.warning = some "Some resets failed" ∧ r.error = none) ∧
    (env.resetOk = true →
      ∀ r ∈ (handle_obsolete_patchinfos env files).results,
        r.warning = none ∧ r.error = none) := by
  refine ⟨?_, ?_, ?_, rfl, ?_, ?_⟩
  · intro f hf hparse hunlink
    cases hp : env.parsePatchinfo f with
    | none => exact absurd hp hparse
    | some patchinfo =>
      have hh : obsoleteUnitHandled env f = some patchinfo := by
        simp [obsoleteUnitHandled, hp, hunlink]
      exact List.mem_map.mpr ⟨(f, patchinfo),
        List.mem_filterMap.mpr ⟨f, hf, by rw [hh]; rfl⟩, rfl⟩
  · intro f hcond hmem
    obtain ⟨fp, hfp, hfpf⟩ := List.mem_map.mp hmem
    obtain ⟨g, _, hg⟩ := List.mem_filterMap.mp hfp
    cases hpg : obsoleteUnitHandled env g with
    | none => rw [hpg] at hg; exact Option.noConfusion hg
    | some patchinfo =>
      rw [hpg] at hg
      injection hg with hg
      rw [← hg] at hfpf
      simp only at hfpf
      rw [hfpf] at hpg
      rcases hcond with hc | hc
      · simp [obsoleteUnitHandled, hc] at hpg
      · cases hpf : env.parsePatchinfo f with
        | none => simp [obsoleteUnitHandled, hpf] at hpg
        | some patchinfo2 => simp [obsoleteUnitHandled, hpf, hc] at hpg
  · exact filterMap_pair_flatMap
      (fun patchinfo => patchinfo.affected_files.map
        (fun e => joinPath env.repoDir e.file_relative_path))
      (fun f => obsoleteUnitHandled env f) files
  · intro hreset r hr
    have hr' : r ∈ ((files.filterMap
        (fun f => (obsoleteUnitHandled env f).map (fun patchinfo => (f, patchinfo)))).flatMap
        (fun fp => obsoleteRecordsFor env fp.1 fp.2)).map
        (fun r => { r with warning := some "Some resets failed" }) := by
      have : (handle_obsolete_patchinfos env files).results
          = ((files.filterMap
              (fun f => (obsoleteUnitHandled env f).map (fun patchinfo => (f, patchinfo)))).flatMap
              (fun fp => obsoleteRecordsFor env fp.1 fp.2)).map
              (fun r => { r with warning := some "Some resets failed" }) := by
        simp [handle_obsolete_patchinfos, hreset]
      rw [← this]
      exact hr
    obtain ⟨r0, hr0, hrr⟩ := List.mem_map.mp hr'
    have hb := obsolete_base_fields env files r0 hr0
    rw [← hrr]
    exact ⟨rfl, hb.1⟩
  · intro hreset r hr
    have hr' : r ∈ (files.filterMap
        (fun f => (obsoleteUnitHandled env f).map (fun patchinfo => (f, patchinfo)))).flatMap
        (fun fp => obsoleteRecordsFor env fp.1 fp.2) := by
      have : (handle_obsolete_patchinfos env files).results
          = (files.filterMap
              (fun f => (obsoleteUnitHandled env f).map (fun patchinfo => (f, patchinfo)))).flatMap
              (fun fp => obsoleteRecordsFor env fp.1 fp.2) := by
        simp [handle_obsolete_patchinfos, hreset]
      rw [← this]
      exact hr
    have hb := obsolete_base_fields env files r hr'
    exact ⟨hb.2, hb.1⟩

/-- A concrete obsolete-handling scenario: one parseable ledger, one
unreadable ledger, deletions succeeding, reset failing. -/
def envObs : ObsoleteEnv :=
  { repoDir := "repo"
    parsePatchinfo := fun f =>
      if f = "x.patchinfo" then
        some { schema_version := 1
               patch_checksum := some "pc"
               affected_files := [⟨"x.cc", some "h"⟩] }
      else none
    unlinkOk := fun _ => true
    resetOk := false }

theorem C4_obsolete_handling_witness :
    "x.patchinfo" ∈ (handle_obsolete_patchinfos envObs
        ["x.patchinfo", "y.patchinfo"]).deletedLedgers ∧
    "y.patchinfo" ∉ (handle_obsolete_patchinfos envObs
        ["x.patchinfo", "y.patchinfo"]).deletedLedgers ∧
    (∀ r ∈ (handle_obsolete_patchinfos envObs
        ["x.patchinfo", "y.patchinfo"]).results,
      r.warning = some "Some resets failed" ∧ r.error = none) :=
  ⟨(C4_obsolete_handling envObs ["x.patchinfo", "y.patchinfo"]).1
      "x.patchinfo" (by simp) (by simp [envObs]) rfl,
   (C4_obsolete_handling envObs ["x.patchinfo", "y.patchinfo"]).2.1
      "y.patchinfo" (Or.inl (by simp [envObs])),
   (C4_obsolete_handling envObs ["x.patchinfo", "y.patchinfo"]).2.2.2.2.1 rfl⟩

/-- A scenario refuting C4 as stated: the obsolete ledger parses but its
deletion raises (for instance PermissionError on a read-only patches
directory). -/
def envObsUnlinkFail : ObsoleteEnv :=
  { repoDir := "repo"
    parsePatchinfo := fun _ =>
      some { schema_version := 1
             patch_checksum := some "pc"
             affected_files := [⟨"x.cc", some "h"⟩] }
    unlinkOk := fun _ => false
    resetOk := true }

/-- C4 counterexample to the claim as stated: `unlink(missing_ok=True)`
suppresses only FileNotFoundError, so a deletion failure of a PARSED
obsolete ledger hits the same `except` as a parse failure
(git_patcher.py lines 354-363): the unit is skipped, the ledger file
survives, and none of its affected files are collected for reset or
reported — refuting "if its ledger entry parses the ledger file is
deleted and its recorded affected files are collected". -/
theorem C4_obsolete_handling_counterexample :
    envObsUnlinkFail.parsePatchinfo "x.patchinfo" ≠ none ∧
    (handle_obsolete_patchinfos envObsUnlinkFail
        ["x.patchinfo"]).deletedLedgers = [] ∧
    (handle_obsolete_patchinfos envObsUnlinkFail
        ["x.patchinfo"]).resetTargets = [] ∧
    (handle_obsolete_patchinfos envObsUnlinkFail
        ["x.patchinfo"]).results = [] :=
  ⟨fun h => Option.noConfusion h, rfl, rfl, rfl⟩

/-! ## Ledger file parsing (PatchInfo.parse, patch_info.py lines 87-148,
and validate_dict_keys_match_dataclass, util.py lines 120-150)

The ledger file is JSON; `json.load` output is modelled by `JsonVal`.
`PatchInfo.parse` raising (for any reason) is modelled as `none`. -/

inductive JsonVal where
  | null
  | bool (b : Bool)
  | num (n : Int)
  | str (s : String)
  | arr (items : List JsonVal)
  | obj (fields : List (String × JsonVal))

/-- Key lookup in a parsed JSON object.  `json.load` builds a Python
dict, where a duplicated key keeps its last value, hence the
last-occurrence-wins lookup. -/
def objLookup : List (String × JsonVal) → String → Option JsonVal
  | [], _ => none
  | f :: rest, k =>
    match objLookup rest k with
    | some v => some v
    | none => if f.1 = k then some f.2 else none

/-- `validate_dict_keys_match_dataclass(data, PatchInfo)`: checks only
that every dataclass field name is PRESENT among the dict keys
(`dataclass_field_names.issubset(data.keys())`); extra keys in the dict
are NOT rejected. -/
def validate_dict_keys_match_PatchInfo (fields : List (String × JsonVal)) : Bool :=
  (objLookup fields "schema_version").isSome &&
  (objLookup fields "patch_checksum").isSome &&
  (objLookup fields "affected_files").isSome

/-- `validate_dict_keys_match_dataclass(data, AffectedFileData)`: same
subset-only check. -/
def validate_dict_keys_match_AffectedFileData
    (fields : List (String × JsonVal)) : Bool :=
  (objLookup fields "file_relative_path").isSome &&
  (objLookup fields "file_checksum").isSome

/-- Python `isinstance(x, int)` on a JSON value: JSON integers pass, and
so do JSON booleans, because Python bool is a subtype of int
(True == 1, False == 0). -/
def jsonAsPyInt : JsonVal → Option Int
  | .num n => some n
  | .bool b => some (if b then 1 else 0)
  | _ => none

/-- Python `isinstance(x, (str, type(None)))` on a JSON value. -/
def jsonAsPyStrOrNone : JsonVal → Option (Option String)
  | .str s => some (some s)
  | .null => some none
  | _ => none

/-- `AffectedFileData.load` (patch_info.py lines 39-70); a non-dict
element makes `data.keys()` raise, which the caller turns into a parse
failure, hence `none`. -/
def AffectedFileData_load : JsonVal → Option AffectedFileData
  | .obj fields =>
    if validate_dict_keys_match_AffectedFileData fields then
      match objLookup fields "file_relative_path",
            objLookup fields "file_checksum" with
      | some (.str p), some cv =>
        match jsonAsPyStrOrNone cv with
        | some c => some ⟨p, c⟩
        | none => none
      | _, _ => none
    else none
  | _ => none

/-- The `affected_files` list comprehension of `PatchInfo.parse`: the
first failing element aborts the whole parse. -/
def loadAffectedFiles : List JsonVal → Option (List AffectedFileData)
  | [] => some []
  | item :: rest =>
    match AffectedFileData_load item with
    | none => none
    | some a =>
      match loadAffectedFiles rest with
      | none => none
      | some as => some (a :: as)

/-- `PatchInfo.parse` on the JSON value of the ledger file; `none`
models the raised exception (I/O errors and JSON syntax errors upstream
of this function are likewise a `none` ledger parse in
`StaleEnv.parsedPatchinfo`). -/
def PatchInfo_parse : JsonVal → Option PatchInfo
  | .obj fields =>
    if validate_dict_keys_match_PatchInfo fields then
      match objLookup fields "schema_version",
            objLookup fields "patch_checksum",
            objLookup fields "affected_files" with
      | some sv, some pcv, some afv =>
        match jsonAsPyInt sv with
        | none => none
        | some v =>
          match jsonAsPyStrOrNone pcv with
          | none => none
          | some c =>
            match afv with
            | .arr items =>
              match loadAffectedFiles items with
              | none => none
              | some afs => some ⟨v, c, afs⟩
            | _ => none
      | _, _, _ => none
    else none
  | _ => none

/-- C5 (amended). Ledger parsing robustness: a missing required field or
a field of the wrong type is a parse failure, and a parse failure makes
the classifier return PATCHINFO_OUTDATED instead of propagating an
exception; an unknown extra field, however, is tolerated (the
key validation only requires the dataclass fields to be a subset of the
dict keys). -/
theorem C5_parse_robustness (fields : List (String × JsonVal)) (env : StaleEnv) :
    ((objLookup fields "schema_version" = none ∨
      objLookup fields "patch_checksum" = none ∨
      objLookup fields "affected_files" = none) →
      PatchInfo_parse (.obj fields) = none) ∧
    (∀ sv, objLookup fields "schema_version" = some sv →
      jsonAsPyInt sv = none → PatchInfo_parse (.obj fields) = none) ∧
    (∀ pcv, objLookup fields "patch_checksum" = some pcv →
      jsonAsPyStrOrNone pcv = none → PatchInfo_parse (.obj fields) = none) ∧
    (∀ afv, objLookup fields "affected_files" = some afv →
      (∀ items, afv ≠ .arr items) → PatchInfo_parse (.obj fields) = none) ∧
    (env.patchinfoIsFile = true → env.parsedPatchinfo = none →
      get_stale_status env = .PATCHINFO_OUTDATED) := by
  refine ⟨?_, ?_, ?_, ?_, ?_⟩
  · intro h
    rcases h with h | h | h <;>
      simp [PatchInfo_parse, validate_dict_keys_match_PatchInfo, h]
  · intro sv hsv hint
    cases hpc : objLookup fields "patch_checksum" with
    | none => simp [PatchInfo_parse, validate_dict_keys_match_PatchInfo, hpc]
    | some pcv =>
      cases haf : objLookup fields "affected_files" with
      | none => simp [PatchInfo_parse, validate_dict_keys_match_PatchInfo, haf]
      | some afv =>
        simp [PatchInfo_parse, validate_dict_keys_match_PatchInfo,
          hsv, hpc, haf, hint]
  · intro pcv hpc hstr
    cases hsv : objLookup fields "schema_version" with
    | none => simp [PatchInfo_parse, validate_dict_keys_match_PatchInfo, hsv]
    | some sv =>
      cases haf : objLookup fields "affected_files" with
      | none => simp [PatchInfo_parse, validate_dict_keys_match_PatchInfo, haf]
      | some afv =>
        cases hint : jsonAsPyInt sv with
        | none =>
          simp [PatchInfo_parse, validate_dict_keys_match_PatchInfo,
            hsv, hpc, haf, hint]
        | some v =>
          simp [PatchInfo_parse, validate_dict_keys_match_PatchInfo,
            hsv, hpc, haf, hint, hstr]
  · intro afv haf hna
    cases hsv : objLookup fields "schema_version" with
    | none => simp [PatchInfo_parse, validate_dict_keys_match_PatchInfo, hsv]
    | some sv =>
      cases hpc : objLookup fields "patch_checksum" with
      | none => simp [PatchInfo_parse, validate_dict_keys_match_PatchInfo, hpc]
      | some pcv =>
        cases hint : jsonAsPyInt sv with
        | none =>
          simp [PatchInfo_parse, validate_dict_keys_match_PatchInfo,
            hsv, hpc, haf, hint]
        | some v =>
          cases hstr : jsonAsPyStrOrNone pcv with
          | none =>
            simp [PatchInfo_parse, validate_dict_keys_match_PatchInfo,
              hsv, hpc, haf, hint, hstr]
          | some c =>
            cases afv with
            | arr items => exact absurd rfl (hna items)
            | null =>
              simp [PatchInfo_parse, validate_dict_keys_match_PatchInfo,
                hsv, hpc, haf, hint, hstr]
            | bool b =>
              simp [PatchInfo_parse, validate_dict_keys_match_PatchInfo,
                hsv, hpc, haf, hint, hstr]
            | num n =>
              simp [PatchInfo_parse, validate_dict_keys_match_PatchInfo,
                hsv, hpc, haf, hint, hstr]
            | str s =>
              simp [PatchInfo_parse, validate_dict_keys_match_PatchInfo,
                hsv, hpc, haf, hint, hstr]
            | obj o =>
              simp [PatchInfo_parse, validate_dict_keys_match_PatchInfo,
                hsv, hpc, haf, hint, hstr]
  · intro h hp
    simp [get_stale_status, h, hp]

/-- A ledger JSON object carrying an unknown extra field next to three
well-formed required fields. -/
def extraFieldLedgerJson : JsonVal :=
  .obj [("schema_version", .num 1), ("patch_checksum", .str "pc"),
        ("affected_files", .arr []), ("unknown_extra_field", .num 7)]

/-- C5 counterexample to the claim as stated: a ledger record with an
unknown extra field is NOT a parse failure — it parses successfully
(the key validation is a subset check), and with matching fingerprints
the classifier returns NONE rather than PATCHINFO_OUTDATED. -/
theorem C5_parse_robustness_counterexample :
    PatchInfo_parse extraFieldLedgerJson
      = some { schema_version := 1
               patch_checksum := some "pc"
               affected_files := [] } ∧
    get_stale_status
      { patchinfoIsFile := true
        parsedPatchinfo := PatchInfo_parse extraFieldLedgerJson
        patchChecksum := some "pc"
        srcChecksum := fun _ => none } = .NONE :=
  ⟨rfl, rfl⟩

/-- The environment seen when the ledger file exists but does not parse. -/
def envUnreadable : StaleEnv :=
  { patchinfoIsFile := true
    parsedPatchinfo := none
    patchChecksum := none
    srcChecksum := fun _ => none }

theorem C5_parse_robustness_witness :
    PatchInfo_parse
        (.obj [("patch_checksum", .null), ("affected_files", .arr [])]) = none ∧
    get_stale_status envUnreadable = .PATCHINFO_OUTDATED :=
  ⟨(C5_parse_robustness [("patch_checksum", .null), ("affected_files", .arr [])]
      envUnreadable).1 (Or.inl rfl),
   (C5_parse_robustness [] envUnreadable).2.2.2.2 rfl rfl⟩

/-! ## Patch generator filename encoding
(GitPatchGenerator.write_patch_files, git_patch_generator.py lines
78-85) -/

/-- One character of the artifact-filename encoding: every path
separator becomes the configured separator character, all other
characters are kept (single-character `str.replace`). -/
def encodeChar (c : Char) : Char :=
  if c = '/' then PATCH_FILE_REPLACEMENT_SEPARATOR else c

/-- The filename derivation of `write_patch_files`:
`Path(p).as_posix().replace("/", "-") + ".patch"`, on the character list
of a normalized repo-relative path (for such paths — as emitted by
`git diff --name-only` — `Path(p).as_posix()` is `p` itself). -/
def patchFilename (relative_path : List Char) : List Char :=
  relative_path.map encodeChar ++ PATCH_FILE_EXT

/-- Inverse of `encodeChar` on separator-free inputs. -/
def decodeChar (c : Char) : Char :=
  if c = PATCH_FILE_REPLACEMENT_SEPARATOR then '/' else c

lemma decode_encode (c : Char) (hc : c ≠ PATCH_FILE_REPLACEMENT_SEPARATOR) :
    decodeChar (encodeChar c) = c := by
  unfold encodeChar decodeChar
  by_cases h : c = '/'
  · simp [h, PATCH_FILE_REPLACEMENT_SEPARATOR]
  · rw [if_neg h, if_neg hc]

lemma map_decode_encode (l : List Char)
    (hl : PATCH_FILE_REPLACEMENT_SEPARATOR ∉ l) :
    (l.map encodeChar).map decodeChar = l := by
  induction l with
  | nil => rfl
  | cons c cs ih =>
    simp only [List.map_cons, List.cons.injEq]
    constructor
    · exact decode_encode c (fun hc => hl (hc ▸ List.mem_cons_self c cs))
    · exact ih (fun hm => hl (List.mem_cons_of_mem c hm))

/-- C8 counterexample to the claim as stated: the encoding is NOT
injective over the paths the code accepts — the two distinct modified
paths `a-b` (a file whose name contains the separator character) and
`a/b` generate the same artifact filename `a-b.patch`. -/
theorem C8_encoding_counterexample :
    patchFilename "a-b".toList = patchFilename "a/b".toList ∧
    "a-b".toList ≠ "a/b".toList := by
  constructor
  · rfl
  · decide

/-- C8 (amended). The generator maps a modified relative path to a
filename by replacing every path separator with the configured separator
character and appending the artifact extension, and this encoding is
injective over paths that do not themselves contain the separator
character: for two such distinct paths the generated filenames differ.
(If a path segment contains the separator, distinct paths can collide —
see the counterexample.) -/
theorem C8_encoding_injective (p q : List Char)
    (hp : PATCH_FILE_REPLACEMENT_SEPARATOR ∉ p)
    (hq : PATCH_FILE_REPLACEMENT_SEPARATOR ∉ q)
    (hne : p ≠ q) :
    patchFilename p ≠ patchFilename q := by
  intro h
  apply hne
  have hmap : p.map encodeChar = q.map encodeChar :=
    List.append_cancel_right h
  calc p = (p.map encodeChar).map decodeChar := (map_decode_encode p hp).symm
    _ = (q.map encodeChar).map decodeChar := by rw [hmap]
    _ = q := map_decode_encode q hq

theorem C8_encoding_injective_witness :
    patchFilename "a/b".toList ≠ patchFilename "c.cc".toList :=
  C8_encoding_injective "a/b".toList "c.cc".toList
    (by decide) (by decide) (by decide)

/-! ## Patch generator path selection
(GitPatchGenerator.update_patches, git_patch_generator.py lines
155-176) -/

/-- The path selection of `update_patches` (lines 164-171):
`filter(self._relative_paths_to_ignore_filter, modified_relative_paths)`.
Python `filter` KEEPS the elements on which the predicate returns a
truthy value. -/
def selectModifiedPaths (relative_paths_to_ignore : Option (String → Bool))
    (modified_relative_paths : List String) : List String :=
  match relative_paths_to_ignore with
  | none => modified_relative_paths
  | some f => modified_relative_paths.filter f

/-- The artifact filenames `update_patches` goes on to write: one per
selected path (`write_patch_files`). -/
def generatedPatchFilenames (relative_paths_to_ignore : Option (String → Bool))
    (modified_relative_paths : List String) : List String :=
  (selectModifiedPaths relative_paths_to_ignore modified_relative_paths).map
    (fun p => String.mk (patchFilename p.toList))

/-- A predicate that selects exactly `third_party/foo.cc` for exclusion
(per the parameter name `relative_paths_to_ignore`, returning True for
a path means that path is to be ignored). -/
def ignoreFooPred : String → Bool := fun p => p == "third_party/foo.cc"

/-- C9 code-bug evaluation: with the ignore-predicate selecting exactly
`third_party/foo.cc` for exclusion, the generator keeps precisely that
path and drops `other.cc` — an artifact is written exactly for the
excluded path, the opposite of the claim (and of the parameter's own
name): Python `filter` keeps, rather than removes, the selected
elements. -/
theorem C9_path_filter_inverted :
    selectModifiedPaths (some ignoreFooPred)
        ["third_party/foo.cc", "other.cc"]
      = ["third_party/foo.cc"] ∧
    generatedPatchFilenames (some ignoreFooPred)
        ["third_party/foo.cc", "other.cc"]
      = ["third_party-foo.cc.patch"] :=
  ⟨rfl, rfl⟩

/-! ## Top-level apply entry point (GitPatcher.apply_patches,
git_patcher.py lines 53-145) -/

/-- Control flow of `GitPatcher.apply_patches` with the two phases
abstracted as fallible computations (`Except` error = an exception
raised inside the phase).  The `try` block wraps only the two phase
calls; an exception from the first phase skips the second; the `except`
arm logs and falls through to `return result`, returning whatever was
accumulated. -/
def apply_patches (patch_dir_is_dir git_repo_dir_is_dir : Bool)
    (applyPhase obsoletePhase : Except String (List FileChangeResult)) :
    Except String (List FileChangeResult) :=
  if patch_dir_is_dir = false then .ok []
  else if git_repo_dir_is_dir = false then
    .error "Could not apply patches. Repo is not a directory or does not exist"
  else
    .ok (match applyPhase with
      | .error _ => []
      | .ok r1 =>
        match obsoletePhase with
        | .error _ => r1
        | .ok r2 => r1 ++ r2)

/-- C10. Given that the patch directory and the repository directory
both exist, `apply_patches` never propagates an exception: whatever the
two phases do (including raising), it returns `.ok` with the result
records accumulated up to the point of failure — empty if the apply
phase raised, the apply-phase records if the obsolete phase raised, and
the concatenation when both succeed. -/
theorem C10_no_exception_propagation
    (applyPhase obsoletePhase : Except String (List FileChangeResult)) :
    ∃ l, apply_patches true true applyPhase obsoletePhase = .ok l ∧
      ((∃ e, applyPhase = .error e ∧ l = []) ∨
       (∃ r1, applyPhase = .ok r1 ∧
         ((∃ e, obsoletePhase = .error e ∧ l = r1) ∨
          (∃ r2, obsoletePhase = .ok r2 ∧ l = r1 ++ r2)))) := by
  cases applyPhase with
  | error e => exact ⟨[], rfl, Or.inl ⟨e, rfl, rfl⟩⟩
  | ok r1 =>
    cases obsoletePhase with
    | error e => exact ⟨r1, rfl, Or.inr ⟨r1, rfl, Or.inl ⟨e, rfl, rfl⟩⟩⟩
    | ok r2 => exact ⟨r1 ++ r2, rfl, Or.inr ⟨r1, rfl, Or.inr ⟨r2, rfl, rfl⟩⟩⟩
